import Mathlib

/-!
Verification of the multi-provider PIX gateway layer of `servidor.py`
(azag666/APIPIX) against its natural-language specification.

The embedding is shallow: the `apis` table becomes a list of records, the
Flask routes become pure functions from an explicit database state and the
decoded JSON request to a result, and the outbound HTTP transport is an
oracle parameter. Decoded Python/JSON values are the inductive `PyVal`;
Python exceptions that escape a handler are the `uncaught` result.
-/

namespace Servidor

/-- A Python value as decoded from JSON by Flask (`request.json`,
`request.args.get`). `pynone` stands for Python `None`, which is both the
decoding of JSON `null` and the result of `dict.get` on an absent key. -/
inductive PyVal where
  | pynone : PyVal
  | num (q : Rat) : PyVal
  | str (s : String) : PyVal
  | boolean (b : Bool) : PyVal
  | list (l : List PyVal) : PyVal
  | dict (l : List (String × PyVal)) : PyVal

/-- Python string repetition `s * n`. -/
def pyStrRepeat (s : String) (n : Nat) : String :=
  String.join (List.replicate n s)

/-- Python list repetition `l * n`. -/
def pyListRepeat (l : List PyVal) (n : Nat) : List PyVal :=
  (List.replicate n l).flatten

/-- Message of the `TypeError` Python raises for `None * 100`. -/
def typeErrorNone : String :=
  "TypeError: unsupported operand type(s) for *: 'NoneType' and 'int'"

/-- Message of the `TypeError` Python raises for `dict * 100`. -/
def typeErrorDict : String :=
  "TypeError: unsupported operand type(s) for *: 'dict' and 'int'"

/-- Python `amount * 100` (lines 280, 284, 314, 318 of servidor.py): numbers
multiply, strings and lists repeat (bool is an int in Python), `None` and
dicts raise `TypeError`. -/
def pyMul100 : PyVal → Except String PyVal
  | .pynone => .error typeErrorNone
  | .num q => .ok (.num (q * 100))
  | .str s => .ok (.str (pyStrRepeat s 100))
  | .boolean b => .ok (.num (if b then 100 else 0))
  | .list l => .ok (.list (pyListRepeat l 100))
  | .dict _ => .error typeErrorDict

/-- `d.get(k)` returning `Option`: the underlying association-list lookup. -/
def pyLookup (d : List (String × PyVal)) (k : String) : Option PyVal :=
  (d.find? (fun kv => kv.1 == k)).map (fun kv => kv.2)

/-- Python `d.get(k, dflt)`. -/
def pyGetD (d : List (String × PyVal)) (k : String) (dflt : PyVal) : PyVal :=
  match pyLookup d k with
  | Option.some v => v
  | Option.none => dflt

/-- Python `d.get(k)`: `None` when the key is absent. -/
def pyGet (d : List (String × PyVal)) (k : String) : PyVal :=
  pyGetD d k .pynone

/-- `v.get(k)` on a value expected to be a dict (used on
`response_data.get('pix', {})`, line 263); on a non-dict Python would raise
`AttributeError`, a path only reachable from a malformed provider response
on the (dead, see `moduleGlobals`) success branch. -/
def pyValGet (v : PyVal) (k : String) : PyVal :=
  match v with
  | .dict l => pyGet l k
  | _ => .pynone

/-- A row of the `apis` table (schema at lines 63-76 of servidor.py):
`id SERIAL PRIMARY KEY`, `user_id`, `name`, `type`, `public_key`,
`secret_key`, `token`, `is_active BOOLEAN DEFAULT FALSE`. -/
structure Api where
  id : Nat
  user_id : Nat
  name : String
  type : String
  public_key : String
  secret_key : String
  token : String
  is_active : Bool
deriving DecidableEq, Repr

/-- The database state: the rows of `apis` in insertion order plus the next
value of the `id` sequence. -/
structure DB where
  apis : List Api
  nextId : Nat
deriving DecidableEq, Repr

/-- The state after `init_db`: no rows, SERIAL sequence at 1. -/
def initDB : DB := { apis := [], nextId := 1 }

/-- `POST /apis` (manage_apis, lines 161-183): INSERT a row for `user_id`;
`is_active` takes its column default FALSE. The `UNIQUE (user_id, name)`
constraint makes a duplicate-name insert roll back with status 400; success
returns 201. -/
def addApi (st : DB) (uid : Nat) (name ty pk sk tok : String) : DB × Nat :=
  if st.apis.any (fun a => a.user_id == uid && a.name == name) then
    (st, 400)
  else
    let row : Api :=
      { id := st.nextId, user_id := uid, name := name, type := ty,
        public_key := pk, secret_key := sk, token := tok, is_active := false }
    ({ apis := st.apis ++ [row], nextId := st.nextId + 1 }, 201)

/-- First UPDATE of set_active_api (line 202): deactivate every row of the
user. -/
def deactivateUser (uid : Nat) (a : Api) : Api :=
  if a.user_id == uid then { a with is_active := false } else a

/-- Second UPDATE of set_active_api (line 205): activate the row matching
both the requested id and the user. -/
def activateMatch (uid api_id : Nat) (a : Api) : Api :=
  if a.id == api_id && a.user_id == uid then { a with is_active := true } else a

/-- `POST /apis/set-active/<api_id>` (set_active_api, lines 200-211): run
both UPDATEs, COMMIT, and only then inspect the second UPDATE's rowcount:
0 matched rows reports 404, but the commit has already persisted both
UPDATEs either way. -/
def setActive (st : DB) (uid api_id : Nat) : DB × Nat :=
  let deactivated := st.apis.map (deactivateUser uid)
  let activated := deactivated.map (activateMatch uid api_id)
  let rowcount := deactivated.countP (fun a => a.id == api_id && a.user_id == uid)
  ({ st with apis := activated }, if rowcount == 0 then 404 else 200)

/-- `SELECT ... FROM apis WHERE user_id = %s AND is_active = TRUE` with
`fetchone` (lines 228-229 and 354-355): the first matching row. -/
def activeApi (st : DB) (uid : Nat) : Option Api :=
  st.apis.find? (fun a => a.user_id == uid && a.is_active)

/-- The `client` object of the oasyfy create body (lines 249-254). -/
structure OasyfyClient where
  name : String
  email : String
  phone : String
  document : String

/-- One entry of the oasyfy `products` array (line 255). -/
structure OasyfyProduct where
  id : String
  name : String
  quantity : Nat
  price : PyVal

/-- The oasyfy create body (lines 246-257). -/
structure OasyfyBody where
  identifier : String
  amount : PyVal
  client : OasyfyClient
  products : List OasyfyProduct
  callbackUrl : String

/-- One entry of the pushinpay/ghostpay `items` array (lines 282-289,
316-323). -/
structure BearerItem where
  unitPrice : PyVal
  title : String
  quantity : Nat
  tangible : Bool

/-- The pushinpay/ghostpay create body (lines 274-291, 308-325). -/
structure BearerBody where
  name : String
  email : String
  cpf : String
  phone : String
  paymentMethod : String
  amount : PyVal
  traceable : Bool
  items : List BearerItem
  postbackUrl : String

/-- The JSON body attached to an outbound request. -/
inductive ReqBody where
  | noBody : ReqBody
  | oasyfy (b : OasyfyBody) : ReqBody
  | bearer (b : BearerBody) : ReqBody

/-- An outbound HTTP request as `requests.post`/`requests.get` would receive
it. -/
structure HttpRequest where
  method : String
  url : String
  headers : List (String × String)
  body : ReqBody

/-- The oasyfy create request (lines 240-259): key-pair auth headers, the
timestamped identifier and client email (`ts` is
`datetime.now().strftime('%Y%m%d%H%M%S')`), and the amount forwarded
unmodified both at top level and as the single product's price. -/
def oasyfyCreateRequest (pk sk : String) (uid : Nat) (ts : String)
    (amount : PyVal) : HttpRequest :=
  { method := "POST"
  , url := "https://app.oasyfy.com/api/v1/gateway/pix/receive"
  , headers := [("Content-Type", "application/json"),
                ("x-public-key", pk), ("x-secret-key", sk)]
  , body := ReqBody.oasyfy
      { identifier := "checkout-" ++ ts ++ "-" ++ toString uid
      , amount := amount
      , client := { name := "Cliente Checkout"
                  , email := "checkout-" ++ ts ++ "@example.com"
                  , phone := "00000000000"
                  , document := "12345678900" }
      , products := [{ id := "1", name := "Produto", quantity := 1,
                       price := amount }]
      , callbackUrl := "https://seu_webhook_de_confirmacoes" } }

/-- The pushinpay create body (lines 274-291) with the already multiplied
amount. -/
def pushinpayBody (ts : String) (amount100 : PyVal) : BearerBody :=
  { name := "Cliente Checkout"
  , email := "checkout-" ++ ts ++ "@example.com"
  , cpf := "12345678901"
  , phone := "16977777777"
  , paymentMethod := "PIX"
  , amount := amount100
  , traceable := true
  , items := [{ unitPrice := amount100, title := "Compra de Produto",
                quantity := 1, tangible := false }]
  , postbackUrl := "https://seu_webhook_de_confirmacoes" }

/-- The pushinpay create request (lines 269-293): `amount * 100` is computed
during body construction, outside the try block, so its `TypeError`
propagates (the `.error` case). -/
def pushinpayCreateRequest (tok ts : String) (amount : PyVal) :
    Except String HttpRequest :=
  (pyMul100 amount).map (fun a100 =>
    { method := "POST"
    , url := "https://api.pushinpay.com.br/api/v1/pix/cashin"
    , headers := [("Content-Type", "application/json"), ("Authorization", tok)]
    , body := ReqBody.bearer (pushinpayBody ts a100) })

/-- The ghostpay create body (lines 308-325) with the already multiplied
amount. -/
def ghostpayBody (ts : String) (amount100 : PyVal) : BearerBody :=
  { name := "Cliente Checkout"
  , email := "checkout-" ++ ts ++ "@example.com"
  , cpf := "12345678901"
  , phone := "+5516999999999"
  , paymentMethod := "PIX"
  , amount := amount100
  , traceable := true
  , items := [{ unitPrice := amount100, title := "Acesso a Curso Online",
                quantity := 1, tangible := false }]
  , postbackUrl := "https://seu_webhook_de_confirmacoes" }

/-- The ghostpay create request (lines 303-328). -/
def ghostpayCreateRequest (tok ts : String) (amount : PyVal) :
    Except String HttpRequest :=
  (pyMul100 amount).map (fun a100 =>
    { method := "POST"
    , url := "https://example.com.br/api/v1/transaction.purchase"
    , headers := [("Content-Type", "application/json"), ("Authorization", tok)]
    , body := ReqBody.bearer (ghostpayBody ts a100) })

/-- The oasyfy status request (lines 364-371): key-pair headers, transaction
id in the URL path. -/
def oasyfyStatusRequest (pk sk tid : String) : HttpRequest :=
  { method := "GET"
  , url := "https://app.oasyfy.com/api/v1/gateway/payments/" ++ tid
  , headers := [("x-public-key", pk), ("x-secret-key", sk)]
  , body := ReqBody.noBody }

/-- The status request shared by the pushinpay and ghostpay branches
(lines 377-383): one bearer-style header, transaction id as a query
parameter, one shared endpoint. -/
def bearerStatusRequest (tok tid : String) : HttpRequest :=
  { method := "GET"
  , url := "https://example.com.br/api/v1/transaction.getPayment?id=" ++ tid
  , headers := [("Authorization", tok)]
  , body := ReqBody.noBody }

/-- The status-request dispatch of verificar_pix (lines 364-389) as a
function of the provider type: which request each adapter builds, `none` for
an unrecognized type. -/
def statusRequestFor (ty pk sk tok tid : String) : Option HttpRequest :=
  if ty == "oasyfy" then Option.some (oasyfyStatusRequest pk sk tid)
  else if ty == "pushinpay" || ty == "ghostpay" then
    Option.some (bearerStatusRequest tok tid)
  else Option.none

/-- What an outbound call would produce, as an oracle: an HTTP status with
the decoded JSON response fields, or a transport failure
(`requests.exceptions.RequestException` with message `msg`). -/
inductive NetResult where
  | httpStatus (code : Nat) (fields : List (String × PyVal)) : NetResult
  | transportError (msg : String) : NetResult

/-- The outbound transport oracle. -/
def Network : Type := HttpRequest → NetResult

/-- The outcome of a request handler: a `jsonify` response with its HTTP
status and JSON object fields, or a Python exception that escaped the
handler (Flask then turns it into a generic 500, with no provider name or
message). -/
inductive PixResult where
  | jsonResp (status : Nat) (fields : List (String × PyVal)) : PixResult
  | uncaught (exc : String) : PixResult

/-- The names line 3-9 of servidor.py bind at module level: `import os`,
`import psycopg2`, `import uuid`, `from flask import Flask, request,
jsonify, g`, `from flask_cors import CORS`, `from datetime import
datetime`, `import functools` (the module-level defs `app`, `get_db`, ...
bind no name the transport code reads). The name `requests` is used at
every outbound call but never imported. -/
def moduleGlobals : List String :=
  ["os", "psycopg2", "uuid", "Flask", "request", "jsonify", "g", "CORS",
   "datetime", "functools"]

/-- Message of the `NameError` Python raises when evaluating `requests.post`
or `requests.get` with `requests` unbound. -/
def nameErrorRequests : String := "NameError: name 'requests' is not defined"

/-- `str(e)` for the `HTTPError` that `raise_for_status` raises on a 4xx/5xx
code (reachable only if `requests` were importable). -/
def httpErrorText (code : Nat) (url : String) : String :=
  if code < 500 then toString code ++ " Client Error for url: " ++ url
  else toString code ++ " Server Error for url: " ++ url

/-- One `try: requests.<method>(...) ... except requests.exceptions.
RequestException` block (e.g. lines 258-267). Evaluating `requests.<method>`
first resolves the name `requests`; it is not among `moduleGlobals`, so the
block raises `NameError` before any request goes out (and the except clause,
which also evaluates `requests`, cannot catch it). Were the name bound, the
call would go to the network, `raise_for_status` would turn a 4xx/5xx into a
caught exception, and the handler would return 500 with the provider name
and message, or 200 with `onOk` applied to the response fields. The first
component lists the requests actually handed to the transport. -/
def attemptCall (net : Network) (provider : String) (req : HttpRequest)
    (onOk : List (String × PyVal) → List (String × PyVal)) :
    List HttpRequest × PixResult :=
  if "requests" ∈ moduleGlobals then
    match net req with
    | .httpStatus code fields =>
      if code < 400 then ([req], .jsonResp 200 (onOk fields))
      else ([req], .jsonResp 500 [("message",
        .str ("Erro na requisição " ++ provider ++ ": " ++ httpErrorText code req.url))])
    | .transportError msg =>
      ([req], .jsonResp 500 [("message",
        .str ("Erro na requisição " ++ provider ++ ": " ++ msg))])
  else
    ([], .uncaught nameErrorRequests)

/-- The message of the no-active-API 400 response (lines 233 and 359). -/
def noActiveMsg : String :=
  "Nenhuma API de pagamento ativa. Ative uma no seu painel de controle."

/-- The message of the missing-transaction-id 400 response (line 352). -/
def missingTidMsg : String := "ID da transação é obrigatório."

/-- The unsupported-type message of gerar_pix (line 338). -/
def unsupportedCreateMsg (ty : String) : String :=
  "API '" ++ ty ++ "' não suportada."

/-- The unsupported-type message of verificar_pix (line 389). -/
def unsupportedStatusMsg (ty : String) : String :=
  "API '" ++ ty ++ "' não suportada para consulta."

/-- A `jsonify({"message": m}), status` return with no outbound request. -/
def msgResp (status : Nat) (m : String) : List HttpRequest × PixResult :=
  ([], .jsonResp status [("message", .str m)])

/-- Response-field extraction of the oasyfy create success path
(lines 262-265). -/
def oasyfyCreateOk (fields : List (String × PyVal)) : List (String × PyVal) :=
  [("pix_code", pyValGet (pyGetD fields "pix" (.dict [])) "code"),
   ("transaction_id", pyGet fields "id")]

/-- Response-field extraction of the pushinpay create success path
(lines 296-299). -/
def pushinpayCreateOk (fields : List (String × PyVal)) : List (String × PyVal) :=
  [("pix_code", pyGet fields "qr_code"), ("transaction_id", pyGet fields "id")]

/-- Response-field extraction of the ghostpay create success path
(lines 331-334). -/
def ghostpayCreateOk (fields : List (String × PyVal)) : List (String × PyVal) :=
  [("pix_code", pyGet fields "pixCode"), ("transaction_id", pyGet fields "id")]

/-- Response-field extraction of every status success path (lines 373, 385). -/
def statusOk (fields : List (String × PyVal)) : List (String × PyVal) :=
  [("status", pyGet fields "status")]

/-- `POST /gerar-pix` (gerar_pix, lines 221-338) after authentication:
look up the active API (fetchone), 400 if none; read `amount` from the JSON
body; branch on the provider type; build the provider request and attempt
the outbound call; unrecognized types get the 400 unsupported response.
For pushinpay/ghostpay the `amount * 100` happens while building the body,
outside the try block, so a `TypeError` there escapes the handler. -/
def gerar_pix (net : Network) (st : DB) (uid : Nat)
    (reqData : List (String × PyVal)) (ts : String) :
    List HttpRequest × PixResult :=
  match activeApi st uid with
  | Option.none => msgResp 400 noActiveMsg
  | Option.some api =>
    let amount := pyGet reqData "amount"
    if api.type == "oasyfy" then
      attemptCall net "Oasyfy"
        (oasyfyCreateRequest api.public_key api.secret_key uid ts amount)
        oasyfyCreateOk
    else if api.type == "pushinpay" then
      match pushinpayCreateRequest api.token ts amount with
      | .error e => ([], .uncaught e)
      | .ok req => attemptCall net "Pushinpay" req pushinpayCreateOk
    else if api.type == "ghostpay" then
      match ghostpayCreateRequest api.token ts amount with
      | .error e => ([], .uncaught e)
      | .ok req => attemptCall net "Ghostpay" req ghostpayCreateOk
    else msgResp 400 (unsupportedCreateMsg api.type)

/-- `GET /verificar-pix` (verificar_pix, lines 343-389) after
authentication: `request.args.get('transaction_id')` is `None` when absent,
and Python's `if not transaction_id` also treats the empty string as
missing; the check runs before the active-API SELECT. Then: 400 if no
active API; branch on the provider type (pushinpay and ghostpay share one
branch, whose error message interpolates the type); unrecognized types get
the 400 unsupported-for-query response. -/
def verificar_pix (net : Network) (st : DB) (uid : Nat)
    (transaction_id : Option String) : List HttpRequest × PixResult :=
  match transaction_id with
  | Option.none => msgResp 400 missingTidMsg
  | Option.some tid =>
    if tid == "" then msgResp 400 missingTidMsg
    else
      match activeApi st uid with
      | Option.none => msgResp 400 noActiveMsg
      | Option.some api =>
        if api.type == "oasyfy" then
          attemptCall net "Oasyfy"
            (oasyfyStatusRequest api.public_key api.secret_key tid) statusOk
        else if api.type == "pushinpay" || api.type == "ghostpay" then
          attemptCall net api.type (bearerStatusRequest api.token tid) statusOk
        else msgResp 400 (unsupportedStatusMsg api.type)

/-- One API operation of the system, as dispatched by the routes. -/
inductive Op where
  | addConfiguration (uid : Nat) (name ty pk sk tok : String) : Op
  | setActiveConfiguration (uid api_id : Nat) : Op
  | createPayment (net : Network) (uid : Nat)
      (reqData : List (String × PyVal)) (ts : String) : Op
  | checkPayment (net : Network) (uid : Nat) (tid : Option String) : Op

/-- The database after one operation. gerar_pix and verificar_pix only
SELECT (they run no INSERT or UPDATE), so they leave the state unchanged. -/
def step (st : DB) : Op → DB
  | .addConfiguration uid n ty pk sk tok => (addApi st uid n ty pk sk tok).1
  | .setActiveConfiguration uid api_id => (setActive st uid api_id).1
  | .createPayment _ _ _ _ => st
  | .checkPayment _ _ _ => st

/-- The database after a sequence of operations. -/
def run (st : DB) (ops : List Op) : DB := ops.foldl step st

/-- How many of `u`'s configurations are active. -/
def activeCount (st : DB) (u : Nat) : Nat :=
  st.apis.countP (fun a => a.user_id == u && a.is_active)

/-- The reachable-state invariant: row ids are distinct (SERIAL PRIMARY
KEY), below the sequence value, and every user has at most one active
configuration. -/
def Inv (st : DB) : Prop :=
  (st.apis.map Api.id).Nodup ∧
  (∀ a ∈ st.apis, a.id < st.nextId) ∧
  ∀ u, activeCount st u ≤ 1

/-- The `products` list of an oasyfy create body, if the body is one. -/
def bodyProducts : ReqBody → Option (List OasyfyProduct)
  | .oasyfy b => Option.some b.products
  | _ => Option.none

/-- The top-level `amount` field of a create body. -/
def bodyAmount : ReqBody → Option PyVal
  | .oasyfy b => Option.some b.amount
  | .bearer b => Option.some b.amount
  | .noBody => Option.none

/-- Whether a body construction completed without raising. -/
def isOkBuild : Except String HttpRequest → Bool
  | .ok _ => true
  | .error _ => false

/-- Whether a decoded JSON value is numeric. -/
def isNumericVal : PyVal → Bool
  | .num _ => true
  | _ => false

/-- A transport oracle for concrete instances: every outbound call fails. -/
def nullNet : Network := fun _ => NetResult.transportError "unreachable"

/-- Fixture: an active oasyfy configuration of user 7. -/
def oasyApi : Api :=
  { id := 1, user_id := 7, name := "main", type := "oasyfy",
    public_key := "pub", secret_key := "sec", token := "", is_active := true }

/-- Fixture: an active pushinpay configuration of user 7. -/
def pushApi : Api :=
  { id := 1, user_id := 7, name := "main", type := "pushinpay",
    public_key := "", secret_key := "", token := "tk1", is_active := true }

/-- Fixture: an active configuration of user 2 (a different user). -/
def otherApi : Api :=
  { id := 3, user_id := 2, name := "other", type := "oasyfy",
    public_key := "p2", secret_key := "s2", token := "", is_active := true }

/-- Fixture: an active configuration of user 7 with an unrecognized provider
type. -/
def oddApi : Api :=
  { id := 1, user_id := 7, name := "main", type := "mercadopago",
    public_key := "", secret_key := "", token := "tk", is_active := true }

/-- Fixture database holding only `oasyApi`. -/
def oasyDB : DB := { apis := [oasyApi], nextId := 2 }

/-- Fixture database holding only `pushApi`. -/
def pushDB : DB := { apis := [pushApi], nextId := 2 }

/-- Fixture database holding only `otherApi`. -/
def otherDB : DB := { apis := [otherApi], nextId := 4 }

/-- Fixture database holding only `oddApi`. -/
def oddDB : DB := { apis := [oddApi], nextId := 2 }

end Servidor

namespace Servidor

/-! ## Structural lemmas about set_active_api -/

theorem deactivateUser_id (uid : Nat) (a : Api) : (deactivateUser uid a).id = a.id := by
  unfold deactivateUser; split <;> rfl

theorem deactivateUser_user_id (uid : Nat) (a : Api) :
    (deactivateUser uid a).user_id = a.user_id := by
  unfold deactivateUser; split <;> rfl

theorem activateMatch_id (uid api_id : Nat) (a : Api) :
    (activateMatch uid api_id a).id = a.id := by
  unfold activateMatch; split <;> rfl

theorem activateMatch_user_id (uid api_id : Nat) (a : Api) :
    (activateMatch uid api_id a).user_id = a.user_id := by
  unfold activateMatch; split <;> rfl

theorem setActive_apis (st : DB) (uid api_id : Nat) :
    (setActive st uid api_id).1.apis =
      st.apis.map (fun a => activateMatch uid api_id (deactivateUser uid a)) := by
  simp [setActive, List.map_map, Function.comp]

theorem setActive_nextId (st : DB) (uid api_id : Nat) :
    (setActive st uid api_id).1.nextId = st.nextId := rfl

theorem setActive_transform (uid api_id : Nat) (a : Api) :
    activateMatch uid api_id (deactivateUser uid a) =
      if a.user_id == uid then
        (if a.id == api_id then { a with is_active := true }
         else { a with is_active := false })
      else a := by
  unfold deactivateUser activateMatch
  by_cases h1 : a.user_id = uid <;> by_cases h2 : a.id = api_id <;> simp [h1, h2]

theorem countP_ext {α : Type} (p q : α → Bool) (l : List α)
    (h : ∀ a ∈ l, p a = q a) : l.countP p = l.countP q := by
  induction l with
  | nil => rfl
  | cons a l ih =>
    rw [List.countP_cons, List.countP_cons, h a (List.mem_cons_self a l),
      ih (fun b hb => h b (List.mem_cons_of_mem a hb))]

theorem countP_beq_le_one {l : List Api} (h : (l.map Api.id).Nodup) (x : Nat) :
    l.countP (fun a => a.id == x) ≤ 1 := by
  induction l with
  | nil => simp
  | cons a l ih =>
    rw [List.map_cons, List.nodup_cons] at h
    rw [List.countP_cons]
    by_cases hx : a.id = x
    · have hz : l.countP (fun a => a.id == x) = 0 := by
        rw [List.countP_eq_zero]
        intro b hb hbx
        simp only [beq_iff_eq] at hbx
        exact h.1 (hx ▸ hbx ▸ List.mem_map_of_mem Api.id hb)
      simp [hz, hx]
    · simp only [beq_iff_eq, hx]
      simpa using ih h.2

theorem activeCount_setActive_le_one (st : DB) (uid api_id u : Nat)
    (hnd : (st.apis.map Api.id).Nodup) (hc : activeCount st u ≤ 1) :
    activeCount (setActive st uid api_id).1 u ≤ 1 := by
  unfold activeCount at hc ⊢
  rw [setActive_apis, List.countP_map]
  by_cases hu : u = uid
  · subst hu
    calc st.apis.countP ((fun a => a.user_id == u && a.is_active) ∘
          (fun a => activateMatch u api_id (deactivateUser u a)))
        ≤ st.apis.countP (fun a => a.id == api_id) := by
          apply List.countP_mono_left
          intro a _ hpa
          simp only [Function.comp, setActive_transform] at hpa
          by_cases h1 : a.user_id = u
          · by_cases h2 : a.id = api_id
            · simpa using h2
            · simp [h1, h2] at hpa
          · simp [h1] at hpa
      _ ≤ 1 := countP_beq_le_one hnd api_id
  · have hpt : ∀ a ∈ st.apis,
        ((fun a => a.user_id == u && a.is_active) ∘
          (fun a => activateMatch uid api_id (deactivateUser uid a))) a =
        (a.user_id == u && a.is_active) := by
      intro a _
      simp only [Function.comp, setActive_transform]
      have hfu : (uid == u) = false := beq_eq_false_iff_ne.2 (fun h => hu h.symm)
      by_cases h1 : a.user_id = uid
      · by_cases h2 : a.id = api_id <;> simp [h1, h2, hfu]
      · simp [h1]
    rw [countP_ext _ _ _ hpt]
    exact hc

/-! ## The reachability invariant -/

theorem addApi_inv (st : DB) (uid : Nat) (n ty pk sk tok : String) (h : Inv st) :
    Inv (addApi st uid n ty pk sk tok).1 := by
  obtain ⟨hnd, hlt, hcnt⟩ := h
  unfold addApi
  split
  · exact ⟨hnd, hlt, hcnt⟩
  · refine ⟨?_, ?_, ?_⟩
    · simp only [List.map_append, List.map_cons, List.map_nil]
      rw [List.nodup_append]
      refine ⟨hnd, List.nodup_singleton _, ?_⟩
      intro x hx hx1
      simp only [List.mem_singleton] at hx1
      obtain ⟨b, hb, rfl⟩ := List.mem_map.1 hx
      exact absurd hx1 (Nat.ne_of_lt (hlt b hb))
    · intro a ha
      simp only [List.mem_append, List.mem_singleton] at ha
      rcases ha with ha | rfl
      · exact Nat.lt_trans (hlt a ha) (Nat.lt_succ_self _)
      · exact Nat.lt_succ_self _
    · intro u
      unfold activeCount at hcnt ⊢
      simp only [List.countP_append, List.countP_cons, List.countP_nil]
      simpa using hcnt u

theorem initDB_inv : Inv initDB := by
  refine ⟨List.nodup_nil, ?_, ?_⟩ <;> intro x <;> simp [initDB, activeCount]

theorem setActive_inv (st : DB) (uid api_id : Nat) (h : Inv st) :
    Inv (setActive st uid api_id).1 := by
  obtain ⟨hnd, hlt, hcnt⟩ := h
  refine ⟨?_, ?_, ?_⟩
  · rw [setActive_apis, List.map_map]
    have he : (Api.id ∘ fun a => activateMatch uid api_id (deactivateUser uid a)) = Api.id := by
      funext a
      simp [Function.comp, activateMatch_id, deactivateUser_id]
    rw [he]; exact hnd
  · intro a ha
    rw [setActive_apis] at ha
    obtain ⟨b, hb, rfl⟩ := List.mem_map.1 ha
    rw [setActive_nextId, activateMatch_id, deactivateUser_id]
    exact hlt b hb
  · intro u
    exact activeCount_setActive_le_one st uid api_id u hnd (hcnt u)

theorem step_inv (st : DB) (op : Op) (h : Inv st) : Inv (step st op) := by
  cases op with
  | addConfiguration uid n ty pk sk tok => exact addApi_inv st uid n ty pk sk tok h
  | setActiveConfiguration uid api_id => exact setActive_inv st uid api_id h
  | createPayment _ _ _ _ => exact h
  | checkPayment _ _ _ => exact h

theorem run_inv (st : DB) (ops : List Op) (h : Inv st) : Inv (run st ops) := by
  induction ops generalizing st with
  | nil => exact h
  | cons op ops ih =>
    simp only [run, List.foldl_cons]
    exact ih (step st op) (step_inv st op h)

/-- Claim C1: for every sequence of operations run from the initial state,
every user has at most one active configuration in every state observable
after an operation completes; in particular each completed setActive call
leaves at most one of the user's configurations active. -/
theorem single_active_invariant (ops : List Op) (u : Nat) :
    activeCount (run initDB ops) u ≤ 1 :=
  (run_inv initDB ops initDB_inv).2.2 u

/-- Claim C2 (code bug): the spec requires a transport failure or non-2xx
status of the outbound call to come back as a structured error carrying the
provider name and the underlying message, never an exception past the
dispatcher. The code never imports `requests`, so for every network
behavior whatsoever — transport failure included — both routes end in an
uncaught `NameError` with no provider name and no underlying message, and
no request is even handed to the transport. -/
theorem outbound_calls_raise_name_error (net : Network) :
    gerar_pix net oasyDB 7 [("amount", PyVal.num 10)] "ts1" =
      ([], PixResult.uncaught nameErrorRequests) ∧
    gerar_pix net pushDB 7 [("amount", PyVal.num 10)] "ts1" =
      ([], PixResult.uncaught nameErrorRequests) ∧
    verificar_pix net oasyDB 7 (Option.some "tx1") =
      ([], PixResult.uncaught nameErrorRequests) ∧
    verificar_pix net pushDB 7 (Option.some "tx1") =
      ([], PixResult.uncaught nameErrorRequests) :=
  ⟨rfl, rfl, rfl, rfl⟩

/-- Claim C3 counterexample: user 7 has one active configuration and calls
setActive with the unknown id 5; the call reports 404 as claimed, but the
configuration's active flag is altered from true to false — the claim that
no configuration's active flag changes is false. -/
theorem setActive_notfound_alters_state :
    (setActive oasyDB 7 5).2 = 404 ∧
    oasyDB.apis.map Api.is_active = [true] ∧
    (setActive oasyDB 7 5).1.apis.map Api.is_active = [false] := by
  decide

/-- Claim C3 (amended): setActive with a configId not owned by the caller
returns 404 and activates nothing, and other users' configurations are
untouched — but every configuration of the caller is left deactivated (the
deactivate-all step is committed before the rowcount check), so an
existing active configuration of the caller loses its flag. -/
theorem setActive_notfound_deactivates (st : DB) (uid api_id : Nat)
    (h : ∀ a ∈ st.apis, ¬(a.id = api_id ∧ a.user_id = uid)) :
    (setActive st uid api_id).2 = 404 ∧
    (setActive st uid api_id).1.apis = st.apis.map (deactivateUser uid) ∧
    (∀ a ∈ st.apis, a.user_id ≠ uid → a ∈ (setActive st uid api_id).1.apis) ∧
    (∀ a ∈ (setActive st uid api_id).1.apis, a.user_id = uid → a.is_active = false) := by
  have hcnt : (st.apis.map (deactivateUser uid)).countP
      (fun a => a.id == api_id && a.user_id == uid) = 0 := by
    rw [List.countP_map, List.countP_eq_zero]
    intro a ha hcond
    simp only [Function.comp, deactivateUser_id, deactivateUser_user_id,
      Bool.and_eq_true, beq_iff_eq] at hcond
    exact h a ha hcond
  have happ : (setActive st uid api_id).1.apis = st.apis.map (deactivateUser uid) := by
    rw [setActive_apis]
    apply List.map_congr_left
    intro a ha
    unfold activateMatch
    have hfalse : ((deactivateUser uid a).id == api_id &&
        (deactivateUser uid a).user_id == uid) = false := by
      rw [deactivateUser_id, deactivateUser_user_id]
      by_cases h1 : a.id = api_id
      · by_cases h2 : a.user_id = uid
        · exact absurd ⟨h1, h2⟩ (h a ha)
        · simp [h2]
      · simp [h1]
    simp [hfalse]
  refine ⟨?_, happ, ?_, ?_⟩
  · have hsnd : (setActive st uid api_id).2 =
        if ((st.apis.map (deactivateUser uid)).countP
          (fun a => a.id == api_id && a.user_id == uid) == 0) = true then 404 else 200 := rfl
    rw [hsnd, hcnt]
    rfl
  · intro a ha hne
    rw [happ]
    refine List.mem_map.2 ⟨a, ha, ?_⟩
    unfold deactivateUser
    simp [hne]
  · intro a ha hau
    rw [happ] at ha
    obtain ⟨b, hb, rfl⟩ := List.mem_map.1 ha
    rw [deactivateUser_user_id] at hau
    unfold deactivateUser
    simp [hau]

/-- Witness for C3 (amended) at a concrete input: configuration 3 belongs
to user 2, and user 7 calls setActive on it. -/
theorem setActive_notfound_deactivates_witness :
    (∀ a ∈ otherDB.apis, ¬(a.id = 3 ∧ a.user_id = 7)) ∧
    ((setActive otherDB 7 3).2 = 404 ∧
     (setActive otherDB 7 3).1.apis = otherDB.apis.map (deactivateUser 7) ∧
     (∀ a ∈ otherDB.apis, a.user_id ≠ 7 → a ∈ (setActive otherDB 7 3).1.apis) ∧
     (∀ a ∈ (setActive otherDB 7 3).1.apis, a.user_id = 7 → a.is_active = false)) :=
  ⟨by decide, setActive_notfound_deactivates otherDB 7 3 (by decide)⟩

/-- Claim C4: with no active configuration for the user, createPayment
returns the no-active-provider 400 error whatever the request body holds,
and hands no request to the transport (the empty first component). -/
theorem no_active_provider_rejects (net : Network) (st : DB) (uid : Nat)
    (reqData : List (String × PyVal)) (ts : String)
    (h : activeApi st uid = Option.none) :
    gerar_pix net st uid reqData ts =
      ([], PixResult.jsonResp 400 [("message", PyVal.str noActiveMsg)]) := by
  simp [gerar_pix, h, msgResp]

/-- Witness for C4 at a concrete input: the empty database. -/
theorem no_active_provider_rejects_witness :
    activeApi initDB 3 = Option.none ∧
    gerar_pix nullNet initDB 3 [] "20240101" =
      ([], PixResult.jsonResp 400 [("message", PyVal.str noActiveMsg)]) :=
  ⟨rfl, no_active_provider_rejects nullNet initDB 3 [] "20240101" rfl⟩

/-- Claim C5: with an active oasyfy configuration, createPayment at amount
10.00 passes to the call layer exactly the request built from the stored
keys, whose headers carry `x-public-key` and `x-secret-key` equal to them,
and whose body has a products array with exactly one entry whose price is
the unmodified 10.00. -/
theorem oasyfy_create_request_shape (net : Network) (st : DB) (uid : Nat)
    (api : Api) (ts : String)
    (ha : activeApi st uid = Option.some api) (hty : api.type = "oasyfy") :
    gerar_pix net st uid [("amount", PyVal.num 10)] ts =
      attemptCall net "Oasyfy"
        (oasyfyCreateRequest api.public_key api.secret_key uid ts (PyVal.num 10))
        oasyfyCreateOk ∧
    ("x-public-key", api.public_key) ∈
      (oasyfyCreateRequest api.public_key api.secret_key uid ts (PyVal.num 10)).headers ∧
    ("x-secret-key", api.secret_key) ∈
      (oasyfyCreateRequest api.public_key api.secret_key uid ts (PyVal.num 10)).headers ∧
    bodyProducts (oasyfyCreateRequest api.public_key api.secret_key uid ts (PyVal.num 10)).body =
      Option.some [{ id := "1", name := "Produto", quantity := 1, price := PyVal.num 10 }] := by
  refine ⟨?_, ?_, ?_, rfl⟩
  · simp [gerar_pix, ha, hty]
    rfl
  · simp [oasyfyCreateRequest]
  · simp [oasyfyCreateRequest]

/-- Witness for C5 at a concrete input: the `oasyApi` configuration. -/
theorem oasyfy_create_request_shape_witness :
    (activeApi oasyDB 7 = Option.some oasyApi ∧ oasyApi.type = "oasyfy") ∧
    (gerar_pix nullNet oasyDB 7 [("amount", PyVal.num 10)] "ts1" =
      attemptCall nullNet "Oasyfy"
        (oasyfyCreateRequest oasyApi.public_key oasyApi.secret_key 7 "ts1" (PyVal.num 10))
        oasyfyCreateOk ∧
    ("x-public-key", oasyApi.public_key) ∈
      (oasyfyCreateRequest oasyApi.public_key oasyApi.secret_key 7 "ts1" (PyVal.num 10)).headers ∧
    ("x-secret-key", oasyApi.secret_key) ∈
      (oasyfyCreateRequest oasyApi.public_key oasyApi.secret_key 7 "ts1" (PyVal.num 10)).headers ∧
    bodyProducts (oasyfyCreateRequest oasyApi.public_key oasyApi.secret_key 7 "ts1" (PyVal.num 10)).body =
      Option.some [{ id := "1", name := "Produto", quantity := 1, price := PyVal.num 10 }]) :=
  ⟨⟨rfl, rfl⟩, oasyfy_create_request_shape nullNet oasyDB 7 oasyApi "ts1" rfl rfl⟩

/-- Claim C6: with an active pushinpay configuration, createPayment at
amount 10.00 builds a request whose body amount is 1000 (minor units,
amount times 100) and whose Authorization header equals the stored token,
and passes exactly that request to the call layer. -/
theorem pushinpay_create_request_shape (net : Network) (st : DB) (uid : Nat)
    (api : Api) (ts : String)
    (ha : activeApi st uid = Option.some api) (hty : api.type = "pushinpay") :
    ∃ r, pushinpayCreateRequest api.token ts (PyVal.num 10) = Except.ok r ∧
      gerar_pix net st uid [("amount", PyVal.num 10)] ts =
        attemptCall net "Pushinpay" r pushinpayCreateOk ∧
      ("Authorization", api.token) ∈ r.headers ∧
      bodyAmount r.body = Option.some (PyVal.num 1000) := by
  refine ⟨_, rfl, ?_, ?_, ?_⟩
  · simp [gerar_pix, ha, hty]
    rfl
  · simp
  · show Option.some (PyVal.num (10 * 100)) = Option.some (PyVal.num 1000)
    norm_num

/-- Witness for C6 at a concrete input: the `pushApi` configuration. -/
theorem pushinpay_create_request_shape_witness :
    (activeApi pushDB 7 = Option.some pushApi ∧ pushApi.type = "pushinpay") ∧
    (∃ r, pushinpayCreateRequest pushApi.token "ts1" (PyVal.num 10) = Except.ok r ∧
      gerar_pix nullNet pushDB 7 [("amount", PyVal.num 10)] "ts1" =
        attemptCall nullNet "Pushinpay" r pushinpayCreateOk ∧
      ("Authorization", pushApi.token) ∈ r.headers ∧
      bodyAmount r.body = Option.some (PyVal.num 1000)) :=
  ⟨⟨rfl, rfl⟩, pushinpay_create_request_shape nullNet pushDB 7 pushApi "ts1" rfl rfl⟩

/-- Claim C7: checkPayment with the transaction id absent (or empty, which
Python's falsiness check treats the same) returns the missing-parameter 400
error with no outbound request, in every state — in particular also when
the user has no active configuration, so the missing-parameter error takes
precedence over the no-active-provider one. -/
theorem missing_transaction_id_first (net : Network) (st : DB) (uid : Nat) :
    verificar_pix net st uid Option.none =
      ([], PixResult.jsonResp 400 [("message", PyVal.str missingTidMsg)]) ∧
    verificar_pix net st uid (Option.some "") =
      ([], PixResult.jsonResp 400 [("message", PyVal.str missingTidMsg)]) :=
  ⟨rfl, rfl⟩

/-- Claim C8: with an active configuration whose provider type is none of
oasyfy, pushinpay, ghostpay, createPayment and checkPayment both return
their unsupported-type 400 error and hand no request to the transport. -/
theorem unsupported_provider_rejected (net : Network) (st : DB) (uid : Nat)
    (api : Api) (reqData : List (String × PyVal)) (ts tid : String)
    (ha : activeApi st uid = Option.some api)
    (h1 : api.type ≠ "oasyfy") (h2 : api.type ≠ "pushinpay")
    (h3 : api.type ≠ "ghostpay") (htid : tid ≠ "") :
    gerar_pix net st uid reqData ts =
      ([], PixResult.jsonResp 400 [("message", PyVal.str (unsupportedCreateMsg api.type))]) ∧
    verificar_pix net st uid (Option.some tid) =
      ([], PixResult.jsonResp 400 [("message", PyVal.str (unsupportedStatusMsg api.type))]) := by
  constructor
  · simp [gerar_pix, ha, h1, h2, h3, msgResp]
  · simp [verificar_pix, ha, h1, h2, h3, htid, msgResp]

/-- Witness for C8 at a concrete input: a configuration of type
mercadopago. -/
theorem unsupported_provider_rejected_witness :
    (activeApi oddDB 7 = Option.some oddApi ∧ oddApi.type ≠ "oasyfy" ∧
     oddApi.type ≠ "pushinpay" ∧ oddApi.type ≠ "ghostpay" ∧ ("t1" : String) ≠ "") ∧
    (gerar_pix nullNet oddDB 7 [] "ts1" =
      ([], PixResult.jsonResp 400 [("message", PyVal.str (unsupportedCreateMsg oddApi.type))]) ∧
     verificar_pix nullNet oddDB 7 (Option.some "t1") =
      ([], PixResult.jsonResp 400 [("message", PyVal.str (unsupportedStatusMsg oddApi.type))])) :=
  ⟨⟨rfl, by decide, by decide, by decide, by decide⟩,
   unsupported_provider_rejected nullNet oddDB 7 oddApi [] "ts1" "t1" rfl
     (by decide) (by decide) (by decide) (by decide)⟩

/-- Claim C9 counterexample: at a concrete transaction id, the oasyfy
status request and the shared bearer status request differ not only in
their headers but also in their endpoint URL, so it is false that only the
header construction differs between the status-query adapters. -/
theorem status_adapters_differ_beyond_headers :
    (oasyfyStatusRequest "pub" "sec" "t1").headers ≠ (bearerStatusRequest "tok" "t1").headers ∧
    (oasyfyStatusRequest "pub" "sec" "t1").url ≠ (bearerStatusRequest "tok" "t1").url := by
  constructor <;> decide

/-- Claim C9 (amended): for every transaction id the status requests built
for pushinpay and for ghostpay are one and the same — same endpoint URL and
same headers; the oasyfy status adapter differs from them in both the
header construction (key pair against bearer) and the endpoint URL. -/
theorem bearer_status_requests_identical (pk sk tok tid : String) :
    statusRequestFor "pushinpay" pk sk tok tid = statusRequestFor "ghostpay" pk sk tok tid ∧
    statusRequestFor "pushinpay" pk sk tok tid = Option.some (bearerStatusRequest tok tid) ∧
    (oasyfyStatusRequest pk sk tid).headers ≠ (bearerStatusRequest tok tid).headers ∧
    (oasyfyStatusRequest pk sk tid).url ≠ (bearerStatusRequest tok tid).url := by
  refine ⟨rfl, rfl, ?_, ?_⟩
  · intro hcon
    simpa [oasyfyStatusRequest, bearerStatusRequest] using congrArg List.length hcon
  · intro hcon
    have hlen := congrArg String.length hcon
    simp only [oasyfyStatusRequest, bearerStatusRequest, String.length_append] at hlen
    have e1 : ("https://app.oasyfy.com/api/v1/gateway/payments/" : String).length = 47 := rfl
    have e2 : ("https://example.com.br/api/v1/transaction.getPayment?id=" : String).length = 56 := rfl
    rw [e1, e2] at hlen
    omega

/-- Claim C10 counterexample: a string amount is present but not numeric,
yet the pushinpay body construction completes without error (Python string
repetition), so the operation is not total ONLY under the precondition of
a numeric amount. -/
theorem pushinpay_accepts_nonnumeric_amount :
    isNumericVal (PyVal.str "a") = false ∧
    isOkBuild (pushinpayCreateRequest "tk1" "ts1" (PyVal.str "a")) = true :=
  ⟨rfl, rfl⟩

/-- Claim C10 (amended): the bearer-provider amount is multiplied by 100
with no presence or type check — an absent amount raises a TypeError that
escapes the handler, a numeric amount is forwarded multiplied by 100, and
a present non-numeric amount supporting integer multiplication (a string,
which Python repeats) is accepted rather than rejected; for oasyfy an
absent amount is forwarded as null, not rejected as a missing parameter. -/
theorem amount_multiplication_unchecked (net : Network) (tok ts pk sk s : String)
    (uid : Nat) (q : Rat) :
    pushinpayCreateRequest tok ts PyVal.pynone = Except.error typeErrorNone ∧
    ghostpayCreateRequest tok ts PyVal.pynone = Except.error typeErrorNone ∧
    gerar_pix net pushDB 7 [] ts = ([], PixResult.uncaught typeErrorNone) ∧
    (pushinpayCreateRequest tok ts (PyVal.num q)).map (fun r => bodyAmount r.body) =
      Except.ok (Option.some (PyVal.num (q * 100))) ∧
    isOkBuild (pushinpayCreateRequest tok ts (PyVal.str s)) = true ∧
    isNumericVal (PyVal.str s) = false ∧
    bodyAmount (oasyfyCreateRequest pk sk uid ts PyVal.pynone).body =
      Option.some PyVal.pynone :=
  ⟨rfl, rfl, rfl, rfl, rfl, rfl, rfl⟩

end Servidor
